import Mathlib

/-!
Verification of the go-auth-system token-lifecycle core.

A shallow embedding of the security-relevant parts of the go-auth-system
repository: the JWT signer (`src/utils` token functions), the account
security ledger (`src/models/user.go`), the session-manager handlers
(`src/handlers/auth.go`), the auth middleware and rate limiter
(`src/middleware`), and the input validators (`src/utils/validation.go`).

Modelling conventions:
* Instants and durations are natural numbers of nanoseconds, matching Go's
  `time.Time`/`time.Duration` (all values arising here are nonnegative).
* JWT `NumericDate` claims are Unix seconds (`jwt.NewNumericDate` truncates
  to whole seconds with the default `TimePrecision`), so issuing twice within
  one second yields identical claim sets.
* A signed token string is modelled as its claim set together with the
  signature algorithm and the signing key (HMAC treated as an ideal MAC:
  two token strings are equal iff claims, algorithm and key agree).
  Arbitrary non-JWT strings are modelled by a `raw` constructor.
* The relational database and Redis are modelled as in-memory lists inside
  an explicit state record; `redisUp` models availability of the cache
  (a failed `Get`/`Set` in Go returns a non-nil error / is ignored).
* Nondeterministic effects (bcrypt salts, `crypto/rand` tokens, SMTP
  success) are passed in as explicit parameters.
-/

namespace GoAuth

/-- Nanoseconds since the Unix epoch, as in Go's `time.Time`. -/
abbrev Instant := Nat

/-- Go `time.Duration`: a count of nanoseconds. -/
abbrev GoDuration := Nat

/-- One second in nanoseconds (`time.Second`). -/
def second : GoDuration := 1000000000

/-- One minute in nanoseconds (`time.Minute`). -/
def minute : GoDuration := 60 * second

/-- One hour in nanoseconds (`time.Hour`). -/
def hour : GoDuration := 60 * minute

/-- One day in nanoseconds (`24 * time.Hour`). -/
def day : GoDuration := 24 * hour

/-- `jwt.NewNumericDate`: truncate an instant to whole Unix seconds. -/
def numDate (t : Instant) : Nat := t / second

/-- Interpret a `NumericDate` (Unix seconds) back as an instant. -/
def nsOfSec (s : Nat) : Instant := s * second

/-- `TokenType` from `src/utils/jwt.go`. -/
inductive TokenType where
  | access
  | refresh
deriving DecidableEq, Repr

/-- The other member of {access, refresh}. -/
def otherKind : TokenType → TokenType
  | .access => .refresh
  | .refresh => .access

/-- JWT signing algorithms relevant to the validator's HMAC-family pin. -/
inductive SigAlg where
  | hs256
  | hs384
  | hs512
  | rs256
  | algNone
deriving DecidableEq, Repr

/-- Whether an algorithm is in the `jwt.SigningMethodHMAC` family, the
check performed by the key function in `ValidateToken`. -/
def isHmacAlg : SigAlg → Bool
  | .hs256 => true
  | .hs384 => true
  | .hs512 => true
  | _ => false

/-- The `Claims` struct of `src/utils/jwt.go`: user id, token kind, and the
registered claims (stored as Unix seconds, as serialized). -/
structure Claims where
  userID : Nat
  tokenType : TokenType
  expiresAt : Option Nat
  issuedAt : Option Nat
  notBefore : Option Nat
  issuer : String
deriving DecidableEq, Repr

/-- A token string. A well-formed JWT string is determined by its claims,
algorithm and signing key; `raw` covers malformed / non-JWT strings. -/
inductive TokenStr where
  | jwt (claims : Claims) (alg : SigAlg) (key : String)
  | raw (s : String)
deriving DecidableEq, Repr

/-- The `iat` claim of a token string, if it is a JWT carrying one. -/
def tokenIat : TokenStr → Option Nat
  | .jwt c _ _ => c.issuedAt
  | .raw _ => none

/-- Lifetime per kind: 15 minutes for access, 7 days for refresh tokens. -/
def tokenLifetime : TokenType → GoDuration
  | .access => 15 * minute
  | .refresh => 7 * day

/-- The claim set built by `GenerateAccessToken`/`GenerateRefreshToken` at
instant `now` for a given user and kind. -/
def genClaims (uid : Nat) (kind : TokenType) (now : Instant) : Claims :=
  { userID := uid
    tokenType := kind
    expiresAt := some (numDate (now + tokenLifetime kind))
    issuedAt := some (numDate now)
    notBefore := some (numDate now)
    issuer := "go-auth-system" }

/-- `GenerateAccessToken` (`src/utils/jwt.go`): HS256 over the claim set. -/
def generateAccessToken (uid : Nat) (now : Instant) (secret : String) : TokenStr :=
  .jwt (genClaims uid .access now) .hs256 secret

/-- `GenerateRefreshToken` (`src/utils/jwt.go`). -/
def generateRefreshToken (uid : Nat) (now : Instant) (secret : String) : TokenStr :=
  .jwt (genClaims uid .refresh now) .hs256 secret

/-- Issue a token of either kind (dispatches to the two generators). -/
def generateToken (uid : Nat) (kind : TokenType) (now : Instant) (secret : String) : TokenStr :=
  match kind with
  | .access => generateAccessToken uid now secret
  | .refresh => generateRefreshToken uid now secret

/-- Failure causes of `ValidateToken`: parse/signature errors from
`jwt.ParseWithClaims` plus the handler's own kind check. -/
inductive VErr where
  | malformed
  | badAlg
  | badSignature
  | expired
  | notYetValid
  | wrongType
deriving DecidableEq, Repr

/-- `ValidateToken` (`src/utils/jwt.go`): parse with the HMAC-pinned key
function, let the `jwt/v5` validator check `exp` and `nbf` against `now`
(the default validator does not verify `iat`), then require the custom
`token_type` claim to match. -/
def validateToken (t : TokenStr) (expected : TokenType) (secret : String)
    (now : Instant) : Except VErr Claims :=
  match t with
  | .raw _ => .error .malformed
  | .jwt c alg key =>
    if isHmacAlg alg = false then .error .badAlg
    else if key ≠ secret then .error .badSignature
    else if (match c.expiresAt with
             | some e => decide (nsOfSec e ≤ now)
             | none => false) then .error .expired
    else if (match c.notBefore with
             | some b => decide (now < nsOfSec b)
             | none => false) then .error .notYetValid
    else if c.tokenType ≠ expected then .error .wrongType
    else .ok c

/-! ## Account security ledger (`src/models/user.go`) -/

/-- The `User` model fields relevant to the security core. -/
structure User where
  id : Nat
  email : String
  passwordHash : String
  isEmailVerified : Bool
  emailVerifiedAt : Option Instant
  failedLoginCount : Nat
  lockedUntil : Option Instant
  lastLoginAt : Option Instant
deriving DecidableEq, Repr

/-- `User.IsAccountLocked`: locked while `time.Now().Before(*LockedUntil)`. -/
def isAccountLocked (u : User) (now : Instant) : Bool :=
  match u.lockedUntil with
  | none => false
  | some t => decide (now < t)

/-- `User.LockAccount(duration)`. -/
def lockAccount (u : User) (now : Instant) (duration : GoDuration) : User :=
  { u with lockedUntil := some (now + duration) }

/-- `User.UnlockAccount`: clears the lock and zeroes the counter. -/
def unlockAccount (u : User) : User :=
  { u with lockedUntil := none, failedLoginCount := 0 }

/-- `User.IncrementFailedLogin`: bump the counter; at 5 or more failed
attempts lock the account for 15 minutes. -/
def incrementFailedLogin (u : User) (now : Instant) : User :=
  let u1 := { u with failedLoginCount := u.failedLoginCount + 1 }
  if u1.failedLoginCount ≥ 5 then lockAccount u1 now (15 * minute) else u1

/-- `User.ResetFailedLoginCount`: zero the counter and unlock. -/
def resetFailedLoginCount (u : User) : User :=
  unlockAccount { u with failedLoginCount := 0 }

/-! ## Stored records -/

/-- A `RefreshToken` database row (refresh session record). -/
structure RefreshRecord where
  userID : Nat
  token : TokenStr
  expiresAt : Instant
deriving DecidableEq, Repr

/-- One-time token rows (`EmailVerificationToken` / `PasswordResetToken`):
random token string, owner, expiry and used flag. -/
structure OtpRecord where
  userID : Nat
  token : String
  expiresAt : Instant
  used : Bool
deriving DecidableEq, Repr

/-- The combined persistent state seen by the handlers: the relational
tables plus the Redis blacklist namespace (`blacklist:<token>` keys with
their expiry instants) and whether the cache is reachable. -/
structure AuthState where
  users : List User
  refreshTokens : List RefreshRecord
  emailTokens : List OtpRecord
  resetTokens : List OtpRecord
  blacklist : List (TokenStr × Instant)
  redisUp : Bool
deriving DecidableEq, Repr

/-- Result of a Redis `Get`: a value, `redis.Nil`, or a connection error. -/
inductive RGet where
  | val (s : String)
  | nil
  | down
deriving DecidableEq, Repr

/-- `Get(ctx, "blacklist:"+token)`: errors when the cache is unreachable;
expired keys behave as absent. -/
def blacklistGet (st : AuthState) (now : Instant) (tok : TokenStr) : RGet :=
  if st.redisUp = false then .down
  else
    match st.blacklist.find? (fun e => e.1 == tok) with
    | some e => if now < e.2 then .val "true" else .nil
    | none => .nil

/-- The guard `err == nil && blacklisted == "true"` used by the handlers:
true only when the lookup succeeded and returned `"true"`. -/
def isBlkTrue (st : AuthState) (now : Instant) (tok : TokenStr) : Bool :=
  match blacklistGet st now tok with
  | .val s => s == "true"
  | _ => false

/-- `Set(ctx, "blacklist:"+token, "true", ttl)`: a no-op when the cache is
unreachable (the handlers ignore the returned error). -/
def blacklistSet (st : AuthState) (tok : TokenStr) (expiry : Instant) : AuthState :=
  if st.redisUp then
    { st with blacklist := (tok, expiry) :: st.blacklist.filter (fun e => ¬ e.1 == tok) }
  else st

/-- Look up a user row by (normalized) email. -/
def findUserByEmail (st : AuthState) (email : String) : Option User :=
  st.users.find? (fun u => u.email == email)

/-- Look up a user row by primary key. -/
def findUserById (st : AuthState) (uid : Nat) : Option User :=
  st.users.find? (fun u => u.id == uid)

/-- `DB.Save(&user)`: overwrite the row with the user's primary key. -/
def saveUser (st : AuthState) (u : User) : AuthState :=
  { st with users := st.users.map (fun v => if v.id = u.id then u else v) }

/-! ## Input validation (`src/utils/validation.go`)

The Unicode character classes (`unicode.IsUpper` etc.) are embedded on the
ASCII plane, which is where all of this repository's own test inputs and
the tokens it generates live. -/

/-- Number of UTF-8 bytes encoding a scalar value; Go's `len` on a string
is the sum of these over its runes. -/
def charUtf8Bytes (c : Char) : Nat :=
  if c.toNat < 0x80 then 1
  else if c.toNat < 0x800 then 2
  else if c.toNat < 0x10000 then 3
  else 4

/-- Go `len(s)` for a UTF-8 string: total byte count. -/
def goStrLen (s : String) : Nat :=
  (s.toList.map charUtf8Bytes).sum

/-- The ASCII range `A`–`Z`: the regex class `[A-Z]`, and also the Latin-1
slice of `unicode.IsUpper` (used to instantiate concrete ASCII inputs). -/
def asciiUpper (c : Char) : Bool :=
  decide (65 ≤ c.toNat ∧ c.toNat ≤ 90)

/-- The ASCII range `a`–`z`: the regex class `[a-z]`, and the Latin-1
slice of `unicode.IsLower`. -/
def asciiLower (c : Char) : Bool :=
  decide (97 ≤ c.toNat ∧ c.toNat ≤ 122)

/-- ASCII digits, the regex class `[0-9]`. -/
def asciiDigit (c : Char) : Bool :=
  decide (48 ≤ c.toNat ∧ c.toNat ≤ 57)

/-- The ASCII slice of `unicode.IsPunct(c) || unicode.IsSymbol(c)`:
exactly the printable non-alphanumeric, non-space ASCII characters. -/
def asciiSpecial (c : Char) : Bool :=
  decide ((33 ≤ c.toNat ∧ c.toNat ≤ 47) ∨ (58 ≤ c.toNat ∧ c.toNat ≤ 64)
    ∨ (91 ≤ c.toNat ∧ c.toNat ≤ 96) ∨ (123 ≤ c.toNat ∧ c.toNat ≤ 126))

/-- ASCII letters, the regex class `[a-zA-Z]`. -/
def isAsciiLetter (c : Char) : Bool :=
  asciiUpper c || asciiLower c

/-- The regex class `[a-zA-Z0-9]`. -/
def isAlnum (c : Char) : Bool :=
  isAsciiLetter c || asciiDigit c

/-- Does `needle` start `hay`? -/
def startsWithList : List Char → List Char → Bool
  | [], _ => true
  | _ :: _, [] => false
  | n :: ns, h :: hs => n == h && startsWithList ns hs

/-- Does `hay` contain `needle` as a contiguous substring
(`strings.Contains`)? -/
def containsSub (hay needle : List Char) : Bool :=
  match hay with
  | [] => startsWithList needle []
  | _ :: hs => startsWithList needle hay || containsSub hs needle

/-- The hard-coded weak-password substrings of `ValidatePassword`. -/
def weakPasswords : List (List Char) :=
  ["password", "123456", "123456789", "qwerty", "abc123",
   "password123", "admin", "letmein", "welcome", "monkey"].map String.toList

/-- The rune loop of `ValidatePassword`: walk the password left to right
and set the three flags through the exclusive `switch` (an upper-case rune
is not tested against the later cases). The classifiers are parameters:
`isUp`/`isLo`/`isSp` stand for the standard-library `unicode.IsUpper`,
`unicode.IsLower` and `unicode.IsPunct(c) || unicode.IsSymbol(c)`, which
this embedding consumes as opaque tables. -/
def passScan (isUp isLo isSp : Char → Bool) :
    List Char → Bool → Bool → Bool → Bool × Bool × Bool
  | [], hasU, hasL, hasS => (hasU, hasL, hasS)
  | c :: rest, hasU, hasL, hasS =>
    if isUp c then passScan isUp isLo isSp rest true hasL hasS
    else if isLo c then passScan isUp isLo isSp rest hasU true hasS
    else if isSp c then passScan isUp isLo isSp rest hasU hasL true
    else passScan isUp isLo isSp rest hasU hasL hasS

/-- `ValidatePassword` (`src/utils/validation.go`) with the Unicode
classifiers and the per-rune lowering of `strings.ToLower` abstracted as
parameters (they are standard-library tables, not code of this
repository): length in bytes must be 9..128, the scanned flags demand at
least one upper-case, lower-case and punctuation-or-symbol rune (no digit
requirement), and the lowered password must not contain a hard-coded weak
substring. -/
def validatePasswordWith (isUp isLo isSp : Char → Bool) (toLow : Char → Char)
    (p : String) : Except String Unit :=
  if p = "" then .error "password is required"
  else if goStrLen p < 9 then .error "password must be at least 9 characters long"
  else if goStrLen p > 128 then .error "password must be less than 128 characters"
  else
    let flags := passScan isUp isLo isSp p.toList false false false
    if flags.1 = false then
      .error "password must contain at least one uppercase letter"
    else if flags.2.1 = false then
      .error "password must contain at least one lowercase letter"
    else if flags.2.2 = false then
      .error "password must contain at least one special character"
    else if weakPasswords.any (fun w => containsSub (p.toList.map toLow) w) then
      .error "password is too weak"
    else .ok ()

/-- `ValidatePassword` instantiated on the ASCII plane (where the
standard-library classifiers coincide with the `ascii…` tables above and
`unicode.ToLower` with `Char.toLower`), used to evaluate the concrete
ASCII inputs appearing in this development. -/
def validatePassword : String → Except String Unit :=
  validatePasswordWith asciiUpper asciiLower asciiSpecial Char.toLower

/-- The class `[a-zA-Z0-9._%+-]` (email local part). -/
def isLocalChar (c : Char) : Bool :=
  isAlnum c || c == '.' || c == '_' || c == '%' || c == '+' || c == '-'

/-- The class `[a-zA-Z0-9.-]` (email domain body). -/
def isDomainChar (c : Char) : Bool :=
  isAlnum c || c == '.' || c == '-'

/-- Anchored match of `^[a-zA-Z0-9._%+-]+@[a-zA-Z0-9.-]+\.[a-zA-Z]{2,}$`.
None of the classes admit `@`, so a match forces exactly one `@`; the
`{2,}`-letter tail can only start at the last dot of the domain (any
earlier split leaves a dot inside the letters-only tail). -/
def emailRegexOk (cs : List Char) : Bool :=
  (cs.count '@' == 1) &&
  (let lp := cs.takeWhile (fun c => ¬ c == '@')
   let dom := (cs.dropWhile (fun c => ¬ c == '@')).drop 1
   (¬ lp.isEmpty) && lp.all isLocalChar &&
   (dom.contains '.') &&
   (let tail := (dom.reverse.takeWhile (fun c => ¬ c == '.')).reverse
    let body := dom.take (dom.length - tail.length - 1)
    (¬ body.isEmpty) && body.all isDomainChar &&
    tail.length ≥ 2 && tail.all isAsciiLetter))

/-- The blocked placeholder/disposable domains. -/
def blockedDomains : List (List Char) :=
  ["example.com", "example.org", "example.net", "test.com", "mailinator.com",
   "10minutemail.com", "temp-mail.org", "yopmail.com"].map String.toList

/-- `strings.TrimSpace` on a character list. -/
def goTrimSpace (cs : List Char) : List Char :=
  ((cs.dropWhile Char.isWhitespace).reverse.dropWhile Char.isWhitespace).reverse

/-- `ValidateEmail` (`src/utils/validation.go`): trim and lower-case, check
the regex, reject doubled/leading/trailing dots, and reject blocked
domains; returns the normalized email. -/
def validateEmail (email : String) : Except String String :=
  if email = "" then .error "email is required"
  else
    let cs := (goTrimSpace email.toList).map Char.toLower
    let e : String := ⟨cs⟩
    if emailRegexOk cs = false then .error "invalid email format"
    else if containsSub cs ['.', '.'] || startsWithList ['.'] cs
        || startsWithList ['.'] cs.reverse then .error "invalid email format"
    else
      let dom := (cs.reverse.takeWhile (fun c => ¬ c == '@')).reverse
      if (¬ dom.isEmpty) && blockedDomains.any (fun d => d == dom.map Char.toLower) then
        .error "email domain is not allowed for registration"
      else .ok e

/-- `ValidateTokenFormat`: nonempty, at least 32 bytes, hex characters only
(`^[a-fA-F0-9]+$`). -/
def validateTokenFormat (t : String) : Except String Unit :=
  if t = "" then .error "token is required"
  else if goStrLen t < 32 then .error "invalid token format"
  else if t.toList.all (fun c => asciiDigit c
      || (97 ≤ c.toNat ∧ c.toNat ≤ 102 : Bool)
      || (65 ≤ c.toNat ∧ c.toNat ≤ 70 : Bool)) = false then
    .error "invalid token format"
  else .ok ()

/-! ## Handler results -/

/-- The classified responses produced by the handlers and middleware
(transport layer maps constructors to HTTP statuses: `badRequest` 400,
`unauthorized` 401, `locked` 423, `notFound` 404, `internalError` 500,
the `ok…` constructors 200). `okResetDebug` is the forgot-password body
that additionally exposes the reset token when the SMTP send fails;
`nextWith` is the middleware passing the authenticated user id along. -/
inductive HttpResult where
  | badRequest (msg : String)
  | unauthorized (msg : String)
  | locked (msg : String)
  | notFound (msg : String)
  | internalError (msg : String)
  | okMsg (msg : String)
  | okTokens (access refresh : TokenStr)
  | okResetDebug (msg resetToken : String)
  | nextWith (userID : Nat)
deriving DecidableEq, Repr

/-! ## Session-manager flows (`src/handlers/auth.go`) -/

/-- `AuthHandler.Login`. The bcrypt comparison `User.CheckPassword` is the
oracle `chk password passwordHash`; both issued tokens are deterministic
in `(user, now, secret)`. -/
def login (st : AuthState) (secret : String) (now : Instant)
    (chk : String → String → Bool) (email pw : String) : HttpResult × AuthState :=
  match validateEmail email with
  | .error e => (.badRequest e, st)
  | .ok ne =>
    if pw = "" then (.badRequest "Password is required", st)
    else
      match findUserByEmail st ne with
      | none => (.unauthorized "Invalid credentials", st)
      | some u =>
        if isAccountLocked u now then
          (.locked "Account is temporarily locked due to too many failed login attempts", st)
        else if chk pw u.passwordHash = false then
          (.unauthorized "Invalid credentials", saveUser st (incrementFailedLogin u now))
        else
          let u1 := { resetFailedLoginCount u with lastLoginAt := some now }
          let st1 := saveUser st u1
          let access := generateAccessToken u.id now secret
          let refresh := generateRefreshToken u.id now secret
          let st2 := { st1 with refreshTokens :=
            st1.refreshTokens ++ [⟨u.id, refresh, now + 7 * day⟩] }
          (.okTokens access refresh, st2)

/-- The access-token blacklisting block shared by `RefreshToken` and
`Logout`: if a bearer token accompanies the request, blacklist it with
TTL equal to its remaining lifetime (default 15 minutes). -/
def blacklistAuthHeader (st : AuthState) (secret : String) (now : Instant)
    (authHeader : Option TokenStr) : AuthState :=
  match authHeader with
  | none => st
  | some at1 =>
    let ttl :=
      match validateToken at1 .access secret now with
      | .ok c =>
        match c.expiresAt with
        | some e => if 0 < nsOfSec e - now then nsOfSec e - now else 15 * minute
        | none => 15 * minute
      | .error _ => 15 * minute
    blacklistSet st at1 (now + ttl)

/-- `AuthHandler.RefreshToken`: validate the presented refresh JWT, consult
the blacklist (skipped if the cache errors), require a live database row,
blacklist any presented access token and the old refresh token, delete the
old row, and issue + store a fresh pair. -/
def refreshToken (st : AuthState) (secret : String) (now : Instant)
    (input : TokenStr) (authHeader : Option TokenStr) : HttpResult × AuthState :=
  match validateToken input .refresh secret now with
  | .error _ => (.unauthorized "Invalid refresh token", st)
  | .ok c =>
    if isBlkTrue st now input then
      (.unauthorized "Refresh token has been revoked", st)
    else
      match st.refreshTokens.find? (fun r => r.token == input && decide (now < r.expiresAt)) with
      | none => (.unauthorized "Invalid refresh token", st)
      | some _ =>
        let st1 := blacklistAuthHeader st secret now authHeader
        let newAccess := generateAccessToken c.userID now secret
        let newRefresh := generateRefreshToken c.userID now secret
        let st2 := blacklistSet st1 input (now + 7 * day)
        let st3 := { st2 with refreshTokens :=
          st2.refreshTokens.filter (fun r => !(r.token == input)) }
        let st4 := { st3 with refreshTokens :=
          st3.refreshTokens ++ [⟨c.userID, newRefresh, now + 7 * day⟩] }
        (.okTokens newAccess newRefresh, st4)

/-- `First` + `Save(used = true)` for a one-time token table: find the
first row with this token that is unexpired and unused, and flip its
`used` flag. Returns the found row (already flipped) and the new table. -/
def consumeOtp (rows : List OtpRecord) (tok : String) (now : Instant) :
    Option (OtpRecord × List OtpRecord) :=
  match rows with
  | [] => none
  | r :: rs =>
    if r.token = tok ∧ now < r.expiresAt ∧ r.used = false then
      some ({ r with used := true }, { r with used := true } :: rs)
    else
      match consumeOtp rs tok now with
      | none => none
      | some (f, rs1) => some (f, r :: rs1)

/-- `AuthHandler.VerifyEmail`: consume an email-verification token and set
the owner's verified flag and timestamp. -/
def verifyEmail (st : AuthState) (now : Instant) (tok : String) : HttpResult × AuthState :=
  if tok = "" then (.badRequest "Token is required", st)
  else
    match consumeOtp st.emailTokens tok now with
    | none => (.badRequest "Invalid or expired token", st)
    | some (r, rows1) =>
      let st1 := { st with emailTokens := rows1 }
      let st2 := { st1 with users := st1.users.map (fun u =>
        if u.id = r.userID then
          { u with isEmailVerified := true, emailVerifiedAt := some now }
        else u) }
      (.okMsg "Email verified successfully", st2)

/-- `AuthHandler.ResetPassword`: validate formats, consume the reset token,
store the new bcrypt hash (`newHash`, salt nondeterminism made explicit)
and force-reset the failed-login ledger. -/
def resetPassword (st : AuthState) (now : Instant) (tok newPw newHash : String) :
    HttpResult × AuthState :=
  match validateTokenFormat tok with
  | .error e => (.badRequest e, st)
  | .ok _ =>
    match validatePassword newPw with
    | .error e => (.badRequest e, st)
    | .ok _ =>
      match consumeOtp st.resetTokens tok now with
      | none => (.badRequest "Invalid or expired token", st)
      | some (r, rows1) =>
        let st1 := { st with resetTokens := rows1 }
        match findUserById st1 r.userID with
        | none => (.notFound "User not found", st1)
        | some u =>
          let u1 := { u with passwordHash := newHash }
          let u2 := resetFailedLoginCount u1
          (.okMsg "Password reset successfully", saveUser st1 u2)

/-- The fixed forgot-password success message. -/
def forgotMsg : String := "If the email exists, a password reset link has been sent"

/-- `AuthHandler.ForgotPassword`: validate the email; if no account
matches, answer with the generic success message; otherwise persist a
reset token (`resetTok`, randomness made explicit) with a 1 hour expiry
and send the email — on SMTP failure (`mailOk = false`) the handler still
answers 200 but includes the reset token in the body. -/
def forgotPassword (st : AuthState) (now : Instant) (email resetTok : String)
    (mailOk : Bool) : HttpResult × AuthState :=
  match validateEmail email with
  | .error e => (.badRequest e, st)
  | .ok ne =>
    match findUserByEmail st ne with
    | none => (.okMsg forgotMsg, st)
    | some u =>
      let st1 := { st with resetTokens :=
        st.resetTokens ++ [⟨u.id, resetTok, now + hour, false⟩] }
      if mailOk = false then (.okResetDebug forgotMsg resetTok, st1)
      else (.okMsg forgotMsg, st1)

/-! ## Auth middleware and rate limiter (`src/middleware`) -/

/-- `AuthMiddleware`: blacklist lookup first (skipped when the cache
errors), then access-token validation. -/
def authMiddleware (st : AuthState) (secret : String) (now : Instant)
    (authHeader : Option TokenStr) : HttpResult :=
  match authHeader with
  | none => .unauthorized "Unauthorized"
  | some tok =>
    if isBlkTrue st now tok then .unauthorized "Token has been revoked"
    else
      match validateToken tok .access secret now with
      | .error _ => .unauthorized "Invalid token"
      | .ok c => .nextWith c.userID

/-- A Redis counter entry: current value and, once `Expire` has been
called, its expiry instant. -/
structure RLEntry where
  count : Nat
  expiresAt : Option Instant
deriving DecidableEq, Repr

/-- The rate limiter's slice of Redis. -/
structure RLState where
  counters : List (String × RLEntry)
  redisUp : Bool
deriving DecidableEq, Repr

/-- Is a counter entry still live at `now`? (`none` = no TTL set.) -/
def rlLive (now : Instant) (e : RLEntry) : Bool :=
  match e.expiresAt with
  | none => true
  | some t => decide (now < t)

/-- Redis `INCR`: an absent or expired key restarts at 1 with no TTL. -/
def redisIncr (st : RLState) (now : Instant) (key : String) : Nat × RLState :=
  match st.counters.find? (fun e => e.1 == key) with
  | some e =>
    if rlLive now e.2 then
      let e1 : RLEntry := { e.2 with count := e.2.count + 1 }
      (e1.count, { st with counters :=
        (key, e1) :: st.counters.filter (fun x => !(x.1 == key)) })
    else
      (1, { st with counters :=
        (key, ⟨1, none⟩) :: st.counters.filter (fun x => !(x.1 == key)) })
  | none =>
    (1, { st with counters := (key, ⟨1, none⟩) :: st.counters })

/-- Redis `EXPIRE key window`. -/
def redisExpire (st : RLState) (now : Instant) (key : String)
    (window : GoDuration) : RLState :=
  { st with counters := st.counters.map (fun x =>
    if x.1 = key then (x.1, { x.2 with expiresAt := some (now + window) }) else x) }

/-- Rate-limiter middleware outcome: pass through, 429 with the constant
`retry_after: window.Seconds()` hint, or 500 when Redis is unreachable. -/
inductive RLResult where
  | next
  | rateLimited (msg : String) (retryAfter : GoDuration)
  | rlError (msg : String)
deriving DecidableEq, Repr

/-- `RateLimiter.LoginRateLimit(maxAttempts, window)`: INCR the per-IP key,
set the TTL only on the first hit of a window, and reject past the limit
with a retry-after hint of the whole window. -/
def loginRateLimit (maxAttempts : Nat) (window : GoDuration) (st : RLState)
    (now : Instant) (ip : String) : RLResult × RLState :=
  if st.redisUp = false then (.rlError "Rate limit error", st)
  else
    let key := "login_attempts:" ++ ip
    let r := redisIncr st now key
    let st2 := if r.1 = 1 then redisExpire r.2 now key window else r.2
    if r.1 > maxAttempts then
      (.rateLimited "Too many login attempts" window, st2)
    else (.next, st2)

/-- The arguments at the call site `rateLimiter.LoginRateLimit(5, 15*60)`
in `SetupRoutes`: the limit is 5 and the window is the untyped constant
`15*60` converted to `time.Duration`, i.e. 900 **nanoseconds**. -/
def loginRateLimitMax : Nat := 5

/-- The window argument `15*60` as a `time.Duration` (nanoseconds). -/
def loginRateLimitWindow : GoDuration := 15 * 60

/-- Run a sequence of login-rate-limited requests from one IP at the given
instants, threading the limiter state. -/
def runLogins (st : RLState) (ip : String) : List Instant → RLState
  | [] => st
  | t :: ts => runLogins (loginRateLimit loginRateLimitMax loginRateLimitWindow st t ip).2 ip ts

/-! ## Spec-side characterization used by the password-policy claim -/

/-- The password policy as the claim words it, over the same abstract
classifiers as the implementation: byte length 9..128, at least one
upper-case, one lower-case and one punctuation-or-symbol character, and
no blacklisted weak substring (case-insensitively). -/
def passwordSpecOkWith (isUp isLo isSp : Char → Bool) (toLow : Char → Char)
    (p : String) : Prop :=
  9 ≤ goStrLen p ∧ goStrLen p ≤ 128
  ∧ (∃ c ∈ p.toList, isUp c = true)
  ∧ (∃ c ∈ p.toList, isLo c = true)
  ∧ (∃ c ∈ p.toList, isSp c = true)
  ∧ ∀ w ∈ weakPasswords, containsSub (p.toList.map toLow) w = false

/-- The three Unicode character classes consumed by `ValidatePassword` are
pairwise disjoint (an upper-case letter is not lower-case and not
punctuation/symbol, and a lower-case letter is not punctuation/symbol) —
the property of the real `unicode` tables under which the exclusive
`switch` sets each flag independently. -/
def ClassesDisjoint (isUp isLo isSp : Char → Bool) : Prop :=
  (∀ c, isUp c = true → isLo c = false)
  ∧ (∀ c, isUp c = true → isSp c = false)
  ∧ (∀ c, isLo c = true → isSp c = false)

/-! ## Concrete fixtures used by witnesses and counterexamples -/

/-- A fixed signing secret for concrete scenarios. -/
def sk : String := "jwt-secret"

/-- A user fixture with two failed attempts on record. -/
def uFix : User :=
  { id := 1, email := "a@gmail.com", passwordHash := "h", isEmailVerified := true
    emailVerifiedAt := none, failedLoginCount := 2, lockedUntil := none
    lastLoginAt := none }

/-- A locked variant of `uFix` (locked until instant 1000). -/
def uLocked : User :=
  { uFix with failedLoginCount := 5, lockedUntil := some 1000 }

/-- A refresh token issued to user 1 at instant 0. -/
def tokR0 : TokenStr := generateRefreshToken 1 0 sk

/-- An access token issued to user 1 at instant 0. -/
def tokA0 : TokenStr := generateAccessToken 1 0 sk

/-- A state with one user holding a live refresh session from instant 0. -/
def stSession : AuthState :=
  { users := [uFix], refreshTokens := [⟨1, tokR0, 7 * day⟩]
    emailTokens := [], resetTokens := [], blacklist := [], redisUp := true }

/-- `stSession` with the cache down and the refresh token already on the
(unreachable) blacklist. -/
def stSessionDown : AuthState :=
  { stSession with redisUp := false, blacklist := [(tokR0, 100 * day)] }

/-- A cache-up state where both fixture tokens are blacklisted. -/
def stRevoked : AuthState :=
  { stSession with blacklist := [(tokR0, 100 * day), (tokA0, 100 * day)] }

/-- `stSession` with its user locked instead. -/
def stLocked : AuthState := { stSession with users := [uLocked] }

/-- A registered user whose address sits in the blocked `example.com`
domain (as the spec's own enumeration example assumes). -/
def uTest : User := { uFix with email := "test@example.com" }

/-- A state containing only `uTest`. -/
def stTest : AuthState := { stSession with users := [uTest] }

/-- `stSession` with no refresh session rows. -/
def stNoRows : AuthState := { stSession with refreshTokens := [] }

/-- A 32-hex-character reset token, as `GeneratePasswordResetToken`
produces. -/
def rhex : String := "aaaaaaaaaaaaaaaaaaaaaaaaaaaaaaaa"

/-- `stSession` extended with one unused email-verification token and one
unused password-reset token, both expiring at instant 1000. -/
def stOtp : AuthState :=
  { stSession with
    emailTokens := [⟨1, "etok", 1000, false⟩]
    resetTokens := [⟨1, rhex, 1000, false⟩] }

/-- A user whose lockout has an expiry at instant 5 and who has 4 failures
on record. -/
def uExpired : User := { uFix with failedLoginCount := 4, lockedUntil := some 5 }

/-- A state containing only `uExpired`. -/
def stExpired : AuthState := { stSession with users := [uExpired] }

/-- A bcrypt oracle that rejects every password. -/
def chkNo : String → String → Bool := fun _ _ => false

/-- A bcrypt oracle that accepts every password. -/
def chkYes : String → String → Bool := fun _ _ => true

end GoAuth

namespace GoAuth

/-! ## Theorems -/

/-- Arithmetic core of the expiry bound, stated over bare naturals. -/
theorem nat_div_mul_lower (now d : Nat) (hd : 1000000000 ≤ d) :
    now < (now + d) / 1000000000 * 1000000000 := by omega

/-- Helper: a freshly truncated expiry lies in the future when the lifetime
is at least one second. -/
theorem now_lt_nsOfSec_numDate (now : Instant) (d : GoDuration)
    (hd : second ≤ d) : now < nsOfSec (numDate (now + d)) :=
  nat_div_mul_lower now d hd

/-- Helper: truncating to seconds never moves an instant into the future. -/
theorem nsOfSec_numDate_le (t : Instant) : nsOfSec (numDate t) ≤ t := by
  simp only [nsOfSec, numDate]
  exact Nat.div_mul_le_self t second

/-- C3. Signer round-trip: for every user id and kind, a freshly issued
token validates against the same kind at issuance time, yielding the same
user id, and validating it against the other kind fails with the
"invalid token type" classification. -/
theorem claim_C3_signer_roundtrip (uid : Nat) (kind : TokenType)
    (now : Instant) (secret : String) :
    validateToken (generateToken uid kind now secret) kind secret now
        = .ok (genClaims uid kind now)
    ∧ (genClaims uid kind now).userID = uid
    ∧ validateToken (generateToken uid kind now secret) (otherKind kind) secret now
        = .error .wrongType := by
  have hlife : second ≤ tokenLifetime kind := by cases kind <;> decide
  have hexp : ¬ nsOfSec (numDate (now + tokenLifetime kind)) ≤ now :=
    Nat.not_le.mpr (now_lt_nsOfSec_numDate now _ hlife)
  have hnbf : ¬ now < nsOfSec (numDate now) :=
    Nat.not_lt.mpr (nsOfSec_numDate_le now)
  cases kind <;>
    simp [validateToken, generateToken, generateAccessToken, generateRefreshToken,
      genClaims, isHmacAlg, otherKind, hexp, hnbf]

/-- Helper: under pairwise-disjoint classes the exclusive `switch` of the
rune loop computes exactly the three independent membership scans. -/
theorem passScan_any (isUp isLo isSp : Char → Bool)
    (hd1 : ∀ c, isUp c = true → isLo c = false)
    (hd2 : ∀ c, isUp c = true → isSp c = false)
    (hd3 : ∀ c, isLo c = true → isSp c = false) :
    ∀ (cs : List Char) (u l s : Bool),
      passScan isUp isLo isSp cs u l s
        = (u || cs.any isUp, l || cs.any isLo, s || cs.any isSp) := by
  intro cs
  induction cs with
  | nil =>
    intro u l s
    simp [passScan]
  | cons c rest ih =>
    intro u l s
    cases hu : isUp c with
    | true => simp [passScan, hu, ih, hd1 c hu, hd2 c hu]
    | false =>
      cases hl : isLo c with
      | true => simp [passScan, hu, hl, ih, hd3 c hl]
      | false =>
        cases hs : isSp c with
        | true => simp [passScan, hu, hl, hs, ih]
        | false => simp [passScan, hu, hl, hs, ih]

/-- Helper: the ASCII classifier tables are pairwise disjoint, as the real
Unicode categories are. -/
theorem asciiClassesDisjoint : ClassesDisjoint asciiUpper asciiLower asciiSpecial := by
  refine ⟨?_, ?_, ?_⟩
  · intro c h
    simp only [asciiUpper, decide_eq_true_eq] at h
    simp only [asciiLower, decide_eq_false_iff_not]
    omega
  · intro c h
    simp only [asciiUpper, decide_eq_true_eq] at h
    simp only [asciiSpecial, decide_eq_false_iff_not]
    omega
  · intro c h
    simp only [asciiLower, decide_eq_true_eq] at h
    simp only [asciiSpecial, decide_eq_false_iff_not]
    omega

/-- C10. Password-policy characterization: for any choice of the three
standard-library character classes (pairwise disjoint, as the real
`unicode.IsUpper` / `IsLower` / `IsPunct`-or-`IsSymbol` categories are)
and any per-rune lowering, `ValidatePassword` accepts exactly the
passwords of byte length 9..128 containing at least one character of each
class and no blacklisted weak substring in the lowered text; in
particular no digit is required — the all-ASCII `"NoNumbers!"`, on which
the library classes coincide with the ASCII tables, is accepted. -/
theorem claim_C10_password_policy :
    (∀ (isUp isLo isSp : Char → Bool) (toLow : Char → Char),
        ClassesDisjoint isUp isLo isSp →
        ∀ p : String,
          validatePasswordWith isUp isLo isSp toLow p = .ok ()
            ↔ passwordSpecOkWith isUp isLo isSp toLow p)
    ∧ validatePassword "NoNumbers!" = .ok () := by
  refine ⟨fun isUp isLo isSp toLow hd p => ?_, rfl⟩
  obtain ⟨hd1, hd2, hd3⟩ := hd
  unfold validatePasswordWith passwordSpecOkWith
  simp only [passScan_any isUp isLo isSp hd1 hd2 hd3, Bool.false_or]
  split_ifs with h1 h2 h3 h4 h5 h6 h7
  · subst h1
    refine iff_of_false (by simp) ?_
    rintro ⟨hA, -⟩
    simp [goStrLen] at hA
  · refine iff_of_false (by simp) ?_
    rintro ⟨hA, -⟩
    omega
  · refine iff_of_false (by simp) ?_
    rintro ⟨-, hB, -⟩
    omega
  · refine iff_of_false (by simp) ?_
    rintro ⟨-, -, ⟨c, hc, hup⟩, -⟩
    rw [List.any_eq_false] at h4
    exact absurd hup (by simpa using h4 c hc)
  · refine iff_of_false (by simp) ?_
    rintro ⟨-, -, -, ⟨c, hc, hlo⟩, -⟩
    rw [List.any_eq_false] at h5
    exact absurd hlo (by simpa using h5 c hc)
  · refine iff_of_false (by simp) ?_
    rintro ⟨-, -, -, -, ⟨c, hc, hsp⟩, -⟩
    rw [List.any_eq_false] at h6
    exact absurd hsp (by simpa using h6 c hc)
  · refine iff_of_false (by simp) ?_
    rintro ⟨-, -, -, -, -, hF⟩
    rw [List.any_eq_true] at h7
    obtain ⟨w, hw, hcont⟩ := h7
    rw [hF w hw] at hcont
    exact Bool.false_ne_true hcont
  · refine iff_of_true rfl ⟨by omega, by omega, ?_, ?_, ?_, ?_⟩
    · have h4t : p.toList.any isUp = true := by
        cases hx : p.toList.any isUp
        · exact absurd hx h4
        · rfl
      simpa using List.any_eq_true.mp h4t
    · have h5t : p.toList.any isLo = true := by
        cases hx : p.toList.any isLo
        · exact absurd hx h5
        · rfl
      simpa using List.any_eq_true.mp h5t
    · have h6t : p.toList.any isSp = true := by
        cases hx : p.toList.any isSp
        · exact absurd hx h6
        · rfl
      simpa using List.any_eq_true.mp h6t
    · intro w hw
      cases hx : containsSub (p.toList.map toLow) w
      · rfl
      · exact absurd (List.any_eq_true.mpr ⟨w, hw, hx⟩) h7

/-- Witness for C10: the characterization applied at the ASCII instance
(whose classes are proved pairwise disjoint) on a concrete password. -/
theorem claim_C10_password_policy_witness :
    ClassesDisjoint asciiUpper asciiLower asciiSpecial
    ∧ (validatePassword "NoNumbers!" = .ok ()
        ↔ passwordSpecOkWith asciiUpper asciiLower asciiSpecial Char.toLower "NoNumbers!") :=
  ⟨asciiClassesDisjoint,
   claim_C10_password_policy.1 asciiUpper asciiLower asciiSpecial Char.toLower
     asciiClassesDisjoint "NoNumbers!"⟩

/-- C9. Rate-limiter window bug: `SetupRoutes` passes the untyped constant
`15*60` as the `time.Duration` window, i.e. 900 nanoseconds instead of the
15 minutes announced by the call-site comment. Consequently a sixth login
attempt from the same IP five seconds (well within 15 minutes) after the
first is admitted instead of rejected, and when a rejection does occur the
retry-after hint is the whole (900 ns) window, not the remaining TTL. -/
theorem claim_C9_rate_limit_window_bug :
    loginRateLimitMax = 5
    ∧ loginRateLimitWindow = 900
    ∧ 15 * minute = 900000000000
    ∧ (loginRateLimit loginRateLimitMax loginRateLimitWindow
        (runLogins ⟨[], true⟩ "1.2.3.4" [0, second, 2 * second, 3 * second, 4 * second])
        (5 * second) "1.2.3.4").1 = .next
    ∧ (loginRateLimit loginRateLimitMax loginRateLimitWindow
        (runLogins ⟨[], true⟩ "1.2.3.4" [0, 0, 0, 0, 0]) 0 "1.2.3.4").1
        = .rateLimited "Too many login attempts" loginRateLimitWindow :=
  ⟨rfl, rfl, rfl, rfl, rfl⟩

/-- C2. Account lockout: a failed password check runs the counter through
`IncrementFailedLogin` (which adds one and, on reaching 5, locks until
`now + 15 minutes`), and while the lock is live every login attempt is
answered `AccountLocked` with a response that does not depend on the
password oracle at all (the comparison is never consulted). -/
theorem claim_C2_account_lockout :
    ∀ (st : AuthState) (secret : String) (now : Instant)
      (chk : String → String → Bool) (email pw ne : String) (u : User),
      validateEmail email = .ok ne → pw ≠ "" → findUserByEmail st ne = some u →
      ((isAccountLocked u now = false → chk pw u.passwordHash = false →
          login st secret now chk email pw
            = (.unauthorized "Invalid credentials", saveUser st (incrementFailedLogin u now))
          ∧ (incrementFailedLogin u now).failedLoginCount = u.failedLoginCount + 1
          ∧ (u.failedLoginCount + 1 = 5 →
              (incrementFailedLogin u now).lockedUntil = some (now + 15 * minute)))
       ∧ (isAccountLocked u now = true →
          login st secret now chk email pw
            = (.locked "Account is temporarily locked due to too many failed login attempts", st)
          ∧ ∀ chk2 : String → String → Bool,
              login st secret now chk2 email pw = login st secret now chk email pw)) := by
  intro st secret now chk email pw ne u hve hpw hfind
  constructor
  · intro hlock hchk
    refine ⟨?_, ?_, ?_⟩
    · simp [login, hve, hpw, hfind, hlock, hchk]
    · simp only [incrementFailedLogin, lockAccount]
      split <;> rfl
    · intro h5
      simp [incrementFailedLogin, lockAccount, h5]
  · intro hlock
    refine ⟨?_, fun chk2 => ?_⟩
    · simp [login, hve, hpw, hfind, hlock]
    · simp [login, hve, hpw, hfind, hlock]

/-- Witness for C2 at a concrete state: user `uFix` (2 failures, unlocked)
gets its counter bumped on a failed check, and the locked user `uLocked`
is rejected identically under both password oracles. -/
theorem claim_C2_account_lockout_witness :
    (login stSession sk 0 chkNo "a@gmail.com" "x"
        = (.unauthorized "Invalid credentials", saveUser stSession (incrementFailedLogin uFix 0))
      ∧ (incrementFailedLogin uFix 0).failedLoginCount = uFix.failedLoginCount + 1)
    ∧ (login stLocked sk 0 chkNo "a@gmail.com" "x"
        = (.locked "Account is temporarily locked due to too many failed login attempts", stLocked)
      ∧ login stLocked sk 0 chkYes "a@gmail.com" "x" = login stLocked sk 0 chkNo "a@gmail.com" "x") := by
  have h1 := (claim_C2_account_lockout stSession sk 0 chkNo "a@gmail.com" "x"
    "a@gmail.com" uFix rfl (by decide) rfl).1 rfl rfl
  have h2 := (claim_C2_account_lockout stLocked sk 0 chkNo "a@gmail.com" "x"
    "a@gmail.com" uLocked rfl (by decide) rfl).2 rfl
  exact ⟨⟨h1.1, h1.2.1⟩, ⟨h2.1, h2.2 chkYes⟩⟩

/-- C5 fails as stated: the claim's own instance `test@example.com` never
reaches the forgot-password flow — `ValidateEmail` rejects the whole
`example.com` domain with a 400 error, not the success response — and when
the account exists but the SMTP send fails, the 200 body additionally
carries the reset token, differing from the body returned for an unknown
address. -/
theorem claim_C5_counterexample :
    (forgotPassword stTest 0 "test@example.com" "rtok" true).1
        = .badRequest "email domain is not allowed for registration"
    ∧ (forgotPassword stTest 0 "nobody@example.com" "rtok" true).1
        = .badRequest "email domain is not allowed for registration"
    ∧ (forgotPassword stSession 0 "a@gmail.com" "rtok" false).1
        = .okResetDebug forgotMsg "rtok"
    ∧ (forgotPassword stSession 0 "b@gmail.com" "rtok" false).1 = .okMsg forgotMsg
    ∧ (.okResetDebug forgotMsg "rtok" : HttpResult) ≠ .okMsg forgotMsg :=
  ⟨rfl, rfl, rfl, rfl, by decide⟩

/-- C5 (amended). For every email accepted by `ValidateEmail` and with the
mail dispatch succeeding, `ForgotPassword` answers the identical generic
200 message whether or not the address matches an account. (Addresses in
the blocked domains — including the claim's `test@example.com` /
`nobody@example.com` pair — are instead rejected with an identical 400
validation error for both; when the mail dispatch fails for an existing
account, the 200 body additionally exposes the reset token.) -/
theorem claim_C5_enumeration_amended (st : AuthState) (now : Instant)
    (email resetTok ne : String) (hve : validateEmail email = .ok ne) :
    (forgotPassword st now email resetTok true).1 = .okMsg forgotMsg := by
  unfold forgotPassword
  rw [hve]
  cases hf : findUserByEmail st ne <;> simp [hf]

/-- Witness for amended C5: identical success bodies for an existing
(`a@gmail.com`) and an unknown (`b@gmail.com`) address. -/
theorem claim_C5_enumeration_amended_witness :
    (forgotPassword stSession 0 "a@gmail.com" "rtok" true).1 = .okMsg forgotMsg
    ∧ (forgotPassword stSession 0 "b@gmail.com" "rtok" true).1 = .okMsg forgotMsg :=
  ⟨claim_C5_enumeration_amended stSession 0 "a@gmail.com" "rtok" "a@gmail.com" rfl,
   claim_C5_enumeration_amended stSession 0 "b@gmail.com" "rtok" "b@gmail.com" rfl⟩

/-- C7 fails as stated: revocation does not surface identically to the
other failures — the middleware answers "Token has been revoked" for a
blacklisted token but "Invalid token" for a malformed one, and the refresh
handler answers "Refresh token has been revoked" versus
"Invalid refresh token". -/
theorem claim_C7_counterexample :
    authMiddleware stRevoked sk second (some tokA0) = .unauthorized "Token has been revoked"
    ∧ authMiddleware stRevoked sk second (some (.raw "junk")) = .unauthorized "Invalid token"
    ∧ (refreshToken stRevoked sk second tokR0 none).1
        = .unauthorized "Refresh token has been revoked"
    ∧ (refreshToken stRevoked sk second (.raw "junk") none).1
        = .unauthorized "Invalid refresh token"
    ∧ ("Token has been revoked" : String) ≠ "Invalid token"
    ∧ ("Refresh token has been revoked" : String) ≠ "Invalid refresh token" :=
  ⟨rfl, rfl, rfl, rfl, by decide, by decide⟩

/-- C7 (amended). All failures carry the same 401 classification, and
within the signature/expiry/kind/malformation class the surfaced message
is identical regardless of the root cause ("Invalid token" for the
middleware, "Invalid refresh token" for refresh rotation — also used when
the session row is missing); a revocation hit alone is surfaced with a
distinct "… has been revoked" message. -/
theorem claim_C7_error_surface_amended :
    (∀ (st : AuthState) (secret : String) (now : Instant) (tok : TokenStr) (e : VErr),
        isBlkTrue st now tok = false →
        validateToken tok .access secret now = .error e →
        authMiddleware st secret now (some tok) = .unauthorized "Invalid token")
    ∧ (∀ (st : AuthState) (secret : String) (now : Instant) (tok : TokenStr),
        isBlkTrue st now tok = true →
        authMiddleware st secret now (some tok) = .unauthorized "Token has been revoked")
    ∧ (∀ (st : AuthState) (secret : String) (now : Instant) (tok : TokenStr)
        (ah : Option TokenStr) (e : VErr),
        validateToken tok .refresh secret now = .error e →
        refreshToken st secret now tok ah = (.unauthorized "Invalid refresh token", st))
    ∧ (∀ (st : AuthState) (secret : String) (now : Instant) (tok : TokenStr)
        (ah : Option TokenStr) (c : Claims),
        validateToken tok .refresh secret now = .ok c →
        isBlkTrue st now tok = true →
        refreshToken st secret now tok ah = (.unauthorized "Refresh token has been revoked", st))
    ∧ (∀ (st : AuthState) (secret : String) (now : Instant) (tok : TokenStr)
        (ah : Option TokenStr) (c : Claims),
        validateToken tok .refresh secret now = .ok c →
        isBlkTrue st now tok = false →
        st.refreshTokens.find? (fun r => r.token == tok && decide (now < r.expiresAt)) = none →
        refreshToken st secret now tok ah = (.unauthorized "Invalid refresh token", st)) := by
  refine ⟨?_, ?_, ?_, ?_, ?_⟩
  · intro st secret now tok e hb hv
    simp [authMiddleware, hb, hv]
  · intro st secret now tok hb
    simp [authMiddleware, hb]
  · intro st secret now tok ah e hv
    simp [refreshToken, hv]
  · intro st secret now tok ah c hv hb
    simp [refreshToken, hv, hb]
  · intro st secret now tok ah c hv hb hf
    simp [refreshToken, hv, hb, hf]

/-- Witness for amended C7, exercising all five branches at concrete
states and tokens. -/
theorem claim_C7_error_surface_amended_witness :
    authMiddleware stSession sk second (some (.raw "junk")) = .unauthorized "Invalid token"
    ∧ authMiddleware stRevoked sk second (some tokA0) = .unauthorized "Token has been revoked"
    ∧ refreshToken stSession sk second (.raw "junk") none
        = (.unauthorized "Invalid refresh token", stSession)
    ∧ refreshToken stRevoked sk second tokR0 none
        = (.unauthorized "Refresh token has been revoked", stRevoked)
    ∧ refreshToken stNoRows sk second tokR0 none
        = (.unauthorized "Invalid refresh token", stNoRows) :=
  ⟨claim_C7_error_surface_amended.1 stSession sk second (.raw "junk") .malformed rfl rfl,
   claim_C7_error_surface_amended.2.1 stRevoked sk second tokA0 rfl,
   claim_C7_error_surface_amended.2.2.1 stSession sk second (.raw "junk") none .malformed rfl,
   claim_C7_error_surface_amended.2.2.2.1 stRevoked sk second tokR0 none
     (genClaims 1 .refresh 0) rfl rfl,
   claim_C7_error_surface_amended.2.2.2.2 stNoRows sk second tokR0 none
     (genClaims 1 .refresh 0) rfl rfl rfl⟩

/-- Helper: with the cache unreachable, the blacklist guard can never
fire. -/
theorem isBlkTrue_of_redis_down (st : AuthState) (now : Instant) (tok : TokenStr)
    (h : st.redisUp = false) : isBlkTrue st now tok = false := by
  simp [isBlkTrue, blacklistGet, h]

/-- C6 fails as stated: with the cache down and the refresh token actually
sitting on the (unreachable) blacklist, rotation proceeds and issues a
fresh pair instead of failing with a retryable error. -/
theorem claim_C6_counterexample :
    stSessionDown.redisUp = false
    ∧ stSessionDown.blacklist = [(tokR0, 100 * day)]
    ∧ (refreshToken stSessionDown sk second tokR0 none).1
        = .okTokens (generateAccessToken 1 second sk) (generateRefreshToken 1 second sk) :=
  ⟨rfl, rfl, rfl⟩

/-- C6 (amended). On revocation-store unavailability the refresh flow and
the auth middleware fail open: the blacklist contents are simply ignored
(the outcome is the same as with any other blacklist). Only the rate
limiter fails closed, aborting with a retryable 500 when its counter store
is unreachable. -/
theorem claim_C6_fail_open_amended :
    (∀ (st : AuthState) (secret : String) (now : Instant) (tok : TokenStr)
        (ah : Option TokenStr) (bl2 : List (TokenStr × Instant)),
        st.redisUp = false →
        (refreshToken st secret now tok ah).1
          = (refreshToken { st with blacklist := bl2 } secret now tok ah).1)
    ∧ (∀ (st : AuthState) (secret : String) (now : Instant) (ah : Option TokenStr)
        (bl2 : List (TokenStr × Instant)),
        st.redisUp = false →
        authMiddleware st secret now ah
          = authMiddleware { st with blacklist := bl2 } secret now ah)
    ∧ (∀ (maxA : Nat) (window : GoDuration) (st : RLState) (now : Instant) (ip : String),
        st.redisUp = false →
        loginRateLimit maxA window st now ip = (.rlError "Rate limit error", st)) := by
  refine ⟨?_, ?_, ?_⟩
  · intro st secret now tok ah bl2 h
    have h2 : ({ st with blacklist := bl2 } : AuthState).redisUp = false := h
    simp only [refreshToken]
    cases hv : validateToken tok .refresh secret now with
    | error e => simp
    | ok c =>
      rw [isBlkTrue_of_redis_down st now tok h,
        isBlkTrue_of_redis_down { st with blacklist := bl2 } now tok h2]
      cases hf : st.refreshTokens.find?
          (fun r => r.token == tok && decide (now < r.expiresAt)) with
      | none => simp [hf]
      | some r => simp [hf]
  · intro st secret now ah bl2 h
    have h2 : ({ st with blacklist := bl2 } : AuthState).redisUp = false := h
    cases ah with
    | none => rfl
    | some tok =>
      simp only [authMiddleware]
      rw [isBlkTrue_of_redis_down st now tok h,
        isBlkTrue_of_redis_down { st with blacklist := bl2 } now tok h2]
  · intro maxA window st now ip h
    simp [loginRateLimit, h]

/-- Witness for amended C6 at concrete states: the down-cache refresh and
middleware outcomes are blacklist-independent, and the limiter 500s. -/
theorem claim_C6_fail_open_amended_witness :
    (refreshToken stSessionDown sk second tokR0 none).1
      = (refreshToken { stSessionDown with blacklist := [] } sk second tokR0 none).1
    ∧ authMiddleware stSessionDown sk second (some tokA0)
      = authMiddleware { stSessionDown with blacklist := [] } sk second (some tokA0)
    ∧ loginRateLimit 5 900 ⟨[], false⟩ 0 "1.2.3.4" = (.rlError "Rate limit error", ⟨[], false⟩) :=
  ⟨claim_C6_fail_open_amended.1 stSessionDown sk second tokR0 none [] rfl,
   claim_C6_fail_open_amended.2.1 stSessionDown sk second (some tokA0) [] rfl,
   claim_C6_fail_open_amended.2.2 5 900 ⟨[], false⟩ 0 "1.2.3.4" rfl⟩

/-- Helper: consumption finds nothing when every row carrying the token is
expired or already used (in particular when no row carries it). -/
theorem consumeOtp_eq_none (rows : List OtpRecord) (tok : String) (now : Instant)
    (h : ∀ r ∈ rows, r.token = tok → (r.expiresAt ≤ now ∨ r.used = true)) :
    consumeOtp rows tok now = none := by
  induction rows with
  | nil => rfl
  | cons r rs ih =>
    have hr := h r (List.mem_cons_self r rs)
    have hcond : ¬ (r.token = tok ∧ now < r.expiresAt ∧ r.used = false) := by
      rintro ⟨h1, h2, h3⟩
      rcases hr h1 with h4 | h4
      · exact absurd h2 (Nat.not_lt.mpr h4)
      · rw [h3] at h4
        exact Bool.false_ne_true h4
    simp only [consumeOtp, if_neg hcond,
      ih (fun x hx => h x (List.mem_cons_of_mem _ hx))]

/-- Helper: inversion of a successful consumption — the returned row
carries the token with its used flag now set, sits in the new table, and
(if the table held at most one row with this token, as the unique index
guarantees) every remaining row with the token is spent or expired. -/
theorem consumeOtp_eq_some (rows : List OtpRecord) (tok : String) (now : Instant)
    (f : OtpRecord) (rows1 : List OtpRecord)
    (h : consumeOtp rows tok now = some (f, rows1)) :
    f.token = tok ∧ f.used = true ∧ f ∈ rows1
    ∧ (rows.countP (fun r => r.token == tok) ≤ 1 →
        ∀ r ∈ rows1, r.token = tok → (r.expiresAt ≤ now ∨ r.used = true)) := by
  induction rows generalizing f rows1 with
  | nil => simp [consumeOtp] at h
  | cons r rs ih =>
    by_cases hc : r.token = tok ∧ now < r.expiresAt ∧ r.used = false
    · rw [consumeOtp, if_pos hc] at h
      injection h with h1
      injection h1 with hf hrows1
      subst hf
      subst hrows1
      refine ⟨hc.1, rfl, List.mem_cons_self _ _, ?_⟩
      intro hcount x hx hxtok
      rcases List.mem_cons.mp hx with hx1 | hx1
      · subst hx1
        exact Or.inr rfl
      · exfalso
        have hbeq : (r.token == tok) = true := by simpa using hc.1
        rw [List.countP_cons] at hcount
        simp [hbeq] at hcount
        exact hcount x hx1 hxtok
    · rw [consumeOtp, if_neg hc] at h
      cases hrec : consumeOtp rs tok now with
      | none =>
        rw [hrec] at h
        simp at h
      | some p =>
        obtain ⟨g, rs1⟩ := p
        rw [hrec] at h
        simp only [] at h
        injection h with h1
        injection h1 with hf hrows1
        subst hf
        subst hrows1
        obtain ⟨e1, e2, e3, e4⟩ := ih g rs1 hrec
        refine ⟨e1, e2, List.mem_cons_of_mem _ e3, ?_⟩
        intro hcount x hx hxtok
        rcases List.mem_cons.mp hx with hx1 | hx1
        · subst hx1
          rcases Nat.lt_or_ge now x.expiresAt with hlt | hge
          · cases hu : x.used with
            | true => exact Or.inr rfl
            | false => exact absurd ⟨hxtok, hlt, hu⟩ hc
          · exact Or.inl hge
        · refine e4 ?_ x hx1 hxtok
          rw [List.countP_cons] at hcount
          omega

/-- C4. One-time token single use: consumption of an email-verification or
password-reset token fails (with the request rejected and the state
untouched) whenever no matching record exists, the record has expired, or
its used flag is already set; a successful consumption flips the matching
record's used flag, so — the token column being unique — any later
sequential consumption of the same token fails even before expiry. -/
theorem claim_C4_one_time_tokens :
    (∀ (st : AuthState) (now : Instant) (tok : String),
        (∀ r ∈ st.emailTokens, r.token = tok → (r.expiresAt ≤ now ∨ r.used = true)) →
        ∃ msg, verifyEmail st now tok = (.badRequest msg, st))
    ∧ (∀ (st : AuthState) (now : Instant) (tok m : String) (st2 : AuthState),
        verifyEmail st now tok = (.okMsg m, st2) →
        st.emailTokens.countP (fun r => r.token == tok) ≤ 1 →
        (∃ r ∈ st2.emailTokens, r.token = tok ∧ r.used = true)
        ∧ ∀ now2, now ≤ now2 →
            ∃ msg, verifyEmail st2 now2 tok = (.badRequest msg, st2))
    ∧ (∀ (st : AuthState) (now : Instant) (tok pw hash : String),
        (∀ r ∈ st.resetTokens, r.token = tok → (r.expiresAt ≤ now ∨ r.used = true)) →
        ∃ msg, resetPassword st now tok pw hash = (.badRequest msg, st))
    ∧ (∀ (st : AuthState) (now : Instant) (tok pw hash m : String) (st2 : AuthState),
        resetPassword st now tok pw hash = (.okMsg m, st2) →
        st.resetTokens.countP (fun r => r.token == tok) ≤ 1 →
        (∃ r ∈ st2.resetTokens, r.token = tok ∧ r.used = true)
        ∧ ∀ now2 pw2 hash2, now ≤ now2 →
            ∃ msg, resetPassword st2 now2 tok pw2 hash2 = (.badRequest msg, st2)) := by
  refine ⟨?_, ?_, ?_, ?_⟩
  · intro st now tok h
    by_cases htok : tok = ""
    · exact ⟨"Token is required", by simp [verifyEmail, htok]⟩
    · exact ⟨"Invalid or expired token",
        by simp [verifyEmail, htok, consumeOtp_eq_none st.emailTokens tok now h]⟩
  · intro st now tok m st2 h hcount
    by_cases htok : tok = ""
    · rw [verifyEmail, if_pos htok] at h
      simp at h
    · rw [verifyEmail, if_neg htok] at h
      cases hco : consumeOtp st.emailTokens tok now with
      | none =>
        rw [hco] at h
        simp at h
      | some p =>
        obtain ⟨f, rows1⟩ := p
        rw [hco] at h
        simp only [] at h
        injection h with h1 h2
        obtain ⟨e1, e2, e3, e4⟩ := consumeOtp_eq_some _ _ _ _ _ hco
        have hst2 : st2.emailTokens = rows1 := by rw [← h2]
        refine ⟨⟨f, hst2 ▸ e3, e1, e2⟩, ?_⟩
        intro now2 hle
        have hall : ∀ r ∈ rows1, r.token = tok →
            (r.expiresAt ≤ now2 ∨ r.used = true) := by
          intro r hr htok2
          rcases e4 hcount r hr htok2 with h5 | h5
          · exact Or.inl (le_trans h5 hle)
          · exact Or.inr h5
        refine ⟨"Invalid or expired token", ?_⟩
        have hnone := consumeOtp_eq_none st2.emailTokens tok now2 (hst2 ▸ hall)
        simp [verifyEmail, htok, hnone]
  · intro st now tok pw hash h
    cases hvf : validateTokenFormat tok with
    | error e => exact ⟨e, by simp [resetPassword, hvf]⟩
    | ok u =>
      cases hvp : validatePassword pw with
      | error e => exact ⟨e, by simp [resetPassword, hvf, hvp]⟩
      | ok v =>
        exact ⟨"Invalid or expired token",
          by simp [resetPassword, hvf, hvp,
            consumeOtp_eq_none st.resetTokens tok now h]⟩
  · intro st now tok pw hash m st2 h hcount
    rw [resetPassword] at h
    cases hvf : validateTokenFormat tok with
    | error e =>
      rw [hvf] at h
      simp at h
    | ok u =>
      rw [hvf] at h
      simp only [] at h
      cases hvp : validatePassword pw with
      | error e =>
        rw [hvp] at h
        simp at h
      | ok v =>
        rw [hvp] at h
        simp only [] at h
        cases hco : consumeOtp st.resetTokens tok now with
        | none =>
          rw [hco] at h
          simp at h
        | some p =>
          obtain ⟨f, rows1⟩ := p
          rw [hco] at h
          simp only [] at h
          obtain ⟨e1, e2, e3, e4⟩ := consumeOtp_eq_some _ _ _ _ _ hco
          cases hfu : findUserById { st with resetTokens := rows1 } f.userID with
          | none =>
            rw [hfu] at h
            simp at h
          | some uu =>
            rw [hfu] at h
            simp only [] at h
            injection h with h1 h2
            have hst2 : st2.resetTokens = rows1 := by
              rw [← h2]
              rfl
            refine ⟨⟨f, hst2 ▸ e3, e1, e2⟩, ?_⟩
            intro now2 pw2 hash2 hle
            have hall : ∀ r ∈ rows1, r.token = tok →
                (r.expiresAt ≤ now2 ∨ r.used = true) := by
              intro r hr htok2
              rcases e4 hcount r hr htok2 with h5 | h5
              · exact Or.inl (le_trans h5 hle)
              · exact Or.inr h5
            cases hvp2 : validatePassword pw2 with
            | error e => exact ⟨e, by simp [resetPassword, hvf, hvp2]⟩
            | ok v2 =>
              have hnone := consumeOtp_eq_none st2.resetTokens tok now2 (hst2 ▸ hall)
              exact ⟨"Invalid or expired token",
                by simp [resetPassword, hvf, hvp2, hnone]⟩

/-- Witness for C4 on a concrete table: a missing token fails; consuming
the stored email/reset tokens succeeds once, marks them used, and a second
sequential consumption fails with the state unchanged. -/
theorem claim_C4_one_time_tokens_witness :
    (∃ msg, verifyEmail stOtp 0 "missing" = (.badRequest msg, stOtp))
    ∧ ((∃ r ∈ (verifyEmail stOtp 0 "etok").2.emailTokens, r.token = "etok" ∧ r.used = true)
       ∧ ∃ msg, verifyEmail (verifyEmail stOtp 0 "etok").2 5 "etok"
           = (.badRequest msg, (verifyEmail stOtp 0 "etok").2))
    ∧ (∃ msg, resetPassword stOtp 0 "bbbbbbbbbbbbbbbbbbbbbbbbbbbbbbbb" "GoodPass!" "nh"
        = (.badRequest msg, stOtp))
    ∧ ((∃ r ∈ (resetPassword stOtp 0 rhex "GoodPass!" "nh").2.resetTokens,
          r.token = rhex ∧ r.used = true)
       ∧ ∃ msg, resetPassword (resetPassword stOtp 0 rhex "GoodPass!" "nh").2 5 rhex
           "GoodPass!" "nh" = (.badRequest msg, (resetPassword stOtp 0 rhex "GoodPass!" "nh").2)) := by
  have h1 := claim_C4_one_time_tokens.1 stOtp 0 "missing" (by decide)
  have h2 := claim_C4_one_time_tokens.2.1 stOtp 0 "etok" "Email verified successfully"
    (verifyEmail stOtp 0 "etok").2 rfl (by decide)
  have h3 := claim_C4_one_time_tokens.2.2.1 stOtp 0 "bbbbbbbbbbbbbbbbbbbbbbbbbbbbbbbb"
    "GoodPass!" "nh" (by decide)
  have h4 := claim_C4_one_time_tokens.2.2.2 stOtp 0 rhex "GoodPass!" "nh"
    "Password reset successfully" (resetPassword stOtp 0 rhex "GoodPass!" "nh").2 rfl (by decide)
  exact ⟨h1, ⟨h2.1, h2.2 5 (by decide)⟩, h3, ⟨h4.1, h4.2 5 "GoodPass!" "nh" (by decide)⟩⟩

/-- Helper: overwriting a user row keeps the saved row in the table when a
row with its primary key was present. -/
theorem mem_saveUser_users (st : AuthState) (u u2 : User) (hu : u ∈ st.users)
    (hid : u.id = u2.id) : u2 ∈ (saveUser st u2).users :=
  List.mem_map.mpr ⟨u, hu, by simp [hid]⟩

/-- Helper: blacklisting never touches the user table. -/
theorem users_blacklistSet (st : AuthState) (tok : TokenStr) (e : Instant) :
    (blacklistSet st tok e).users = st.users := by
  unfold blacklistSet
  split <;> rfl

/-- Helper: neither does the access-token blacklisting block. -/
theorem users_blacklistAuthHeader (st : AuthState) (secret : String) (now : Instant)
    (ah : Option TokenStr) : (blacklistAuthHeader st secret now ah).users = st.users := by
  unfold blacklistAuthHeader
  cases ah with
  | none => rfl
  | some a => exact users_blacklistSet _ _ _

/-- C8. Lockout-counter asymmetry: a failed login on an account whose lock
has expired still builds on the old counter (mere expiry resets nothing);
a successful login zeroes the counter and clears the lock of the account
that logged in; a completed password reset force-resets exactly the
account owning the consumed reset token (every user row with that id ends
with counter 0 and no lock, and such a row exists); and the other flows
(email verification, refresh rotation, forgot-password) never change any
user's failed-login counter. -/
theorem claim_C8_lockout_counter_asymmetry :
    (∀ (st : AuthState) (secret : String) (now : Instant)
        (chk : String → String → Bool) (email pw ne : String) (u : User) (tlock : Instant),
        validateEmail email = .ok ne → pw ≠ "" → findUserByEmail st ne = some u →
        u.lockedUntil = some tlock → tlock ≤ now → chk pw u.passwordHash = false →
        login st secret now chk email pw
          = (.unauthorized "Invalid credentials", saveUser st (incrementFailedLogin u now))
        ∧ (incrementFailedLogin u now).failedLoginCount = u.failedLoginCount + 1)
    ∧ (∀ (st : AuthState) (secret : String) (now : Instant)
        (chk : String → String → Bool) (email pw ne : String) (u : User),
        validateEmail email = .ok ne → pw ≠ "" → findUserByEmail st ne = some u →
        isAccountLocked u now = false → chk pw u.passwordHash = true →
        ∃ st2, login st secret now chk email pw
            = (.okTokens (generateAccessToken u.id now secret)
                (generateRefreshToken u.id now secret), st2)
          ∧ ∃ u2 ∈ st2.users, u2.id = u.id ∧ u2.failedLoginCount = 0
              ∧ u2.lockedUntil = none)
    ∧ (∀ (st : AuthState) (now : Instant) (tok pw hash m : String) (st2 : AuthState),
        resetPassword st now tok pw hash = (.okMsg m, st2) →
        ∃ f rows1, consumeOtp st.resetTokens tok now = some (f, rows1)
          ∧ f.token = tok
          ∧ (∃ u2 ∈ st2.users, u2.id = f.userID)
          ∧ ∀ u2 ∈ st2.users, u2.id = f.userID →
              u2.failedLoginCount = 0 ∧ u2.lockedUntil = none)
    ∧ (∀ (st : AuthState) (now : Instant) (tok : String),
        ((verifyEmail st now tok).2).users.map (fun u => u.failedLoginCount)
          = st.users.map (fun u => u.failedLoginCount))
    ∧ (∀ (st : AuthState) (secret : String) (now : Instant) (tok : TokenStr)
        (ah : Option TokenStr), ((refreshToken st secret now tok ah).2).users = st.users)
    ∧ (∀ (st : AuthState) (now : Instant) (email rtok : String) (mailOk : Bool),
        ((forgotPassword st now email rtok mailOk).2).users = st.users) := by
  refine ⟨?_, ?_, ?_, ?_, ?_, ?_⟩
  · intro st secret now chk email pw ne u tlock hve hpw hfind hsome htl hchk
    have hnl : ¬ (now < tlock) := Nat.not_lt.mpr htl
    have hlock : isAccountLocked u now = false := by
      simp [isAccountLocked, hsome, hnl]
    refine ⟨by simp [login, hve, hpw, hfind, hlock, hchk], ?_⟩
    simp only [incrementFailedLogin, lockAccount]
    split <;> rfl
  · intro st secret now chk email pw ne u hve hpw hfind hlock hchk
    refine ⟨{ saveUser st { resetFailedLoginCount u with lastLoginAt := some now } with
        refreshTokens :=
          (saveUser st { resetFailedLoginCount u with lastLoginAt := some now }).refreshTokens
            ++ [⟨u.id, generateRefreshToken u.id now secret, now + 7 * day⟩] }, ?_, ?_⟩
    · simp [login, hve, hpw, hfind, hlock, hchk]
    · have hu : u ∈ st.users := List.mem_of_find?_eq_some hfind
      exact ⟨{ resetFailedLoginCount u with lastLoginAt := some now },
        mem_saveUser_users st u _ hu rfl, rfl, rfl, rfl⟩
  · intro st now tok pw hash m st2 h
    rw [resetPassword] at h
    cases hvf : validateTokenFormat tok with
    | error e =>
      rw [hvf] at h
      simp at h
    | ok u =>
      rw [hvf] at h
      simp only [] at h
      cases hvp : validatePassword pw with
      | error e =>
        rw [hvp] at h
        simp at h
      | ok v =>
        rw [hvp] at h
        simp only [] at h
        cases hco : consumeOtp st.resetTokens tok now with
        | none =>
          rw [hco] at h
          simp at h
        | some p =>
          obtain ⟨f, rows1⟩ := p
          rw [hco] at h
          simp only [] at h
          cases hfu : findUserById { st with resetTokens := rows1 } f.userID with
          | none =>
            rw [hfu] at h
            simp at h
          | some uu =>
            rw [hfu] at h
            simp only [] at h
            injection h with h1 h2
            obtain ⟨e1, e2, e3, e4⟩ := consumeOtp_eq_some _ _ _ _ _ hco
            have huu : uu ∈ ({ st with resetTokens := rows1 } : AuthState).users :=
              List.mem_of_find?_eq_some hfu
            have huuid : uu.id = f.userID := by
              have := List.find?_some hfu
              simpa using this
            refine ⟨f, rows1, rfl, e1, ?_, ?_⟩
            · refine ⟨resetFailedLoginCount { uu with passwordHash := hash }, ?_, huuid⟩
              rw [← h2]
              exact mem_saveUser_users _ uu _ huu rfl
            · intro u2 hu2 hid
              rw [← h2] at hu2
              simp only [saveUser] at hu2
              obtain ⟨v, hv, himg⟩ := List.mem_map.mp hu2
              by_cases hvi :
                  v.id = (resetFailedLoginCount { uu with passwordHash := hash }).id
              · rw [if_pos hvi] at himg
                subst himg
                exact ⟨rfl, rfl⟩
              · rw [if_neg hvi] at himg
                subst himg
                exact absurd (hid.trans huuid.symm) hvi
  · intro st now tok
    by_cases htok : tok = ""
    · simp [verifyEmail, htok]
    · rw [verifyEmail, if_neg htok]
      cases hco : consumeOtp st.emailTokens tok now with
      | none => rfl
      | some p =>
        obtain ⟨f, rows1⟩ := p
        simp only [List.map_map]
        apply List.map_congr_left
        intro u hu
        by_cases hid : u.id = f.userID <;> simp [hid]
  · intro st secret now tok ah
    cases hv : validateToken tok .refresh secret now with
    | error e => simp [refreshToken, hv]
    | ok c =>
      by_cases hb : isBlkTrue st now tok
      · simp [refreshToken, hv, hb]
      · cases hf : st.refreshTokens.find?
            (fun r => r.token == tok && decide (now < r.expiresAt)) with
        | none => simp [refreshToken, hv, hb, hf]
        | some r =>
          simp [refreshToken, hv, hb, hf, users_blacklistSet,
            users_blacklistAuthHeader]
  · intro st now email rtok mailOk
    cases hve : validateEmail email with
    | error e => simp [forgotPassword, hve]
    | ok ne =>
      cases hfu : findUserByEmail st ne with
      | none => simp [forgotPassword, hve, hfu]
      | some u =>
        by_cases hm : mailOk = false <;> simp [forgotPassword, hve, hfu, hm]

/-- Witness for C8: the expired-lock user `uExpired` goes from 4 to 5
failures on the next failed attempt (no amnesty from expiry), a
successful login resets `uFix`, and the concrete reset flow leaves a user
with a zero counter and no lock. -/
theorem claim_C8_lockout_counter_asymmetry_witness :
    (login stExpired sk 10 chkNo "a@gmail.com" "x"
        = (.unauthorized "Invalid credentials",
           saveUser stExpired (incrementFailedLogin uExpired 10))
      ∧ (incrementFailedLogin uExpired 10).failedLoginCount
          = uExpired.failedLoginCount + 1)
    ∧ (∃ st2, login stSession sk 0 chkYes "a@gmail.com" "pw"
          = (.okTokens (generateAccessToken 1 0 sk) (generateRefreshToken 1 0 sk), st2)
        ∧ ∃ u2 ∈ st2.users, u2.id = 1 ∧ u2.failedLoginCount = 0 ∧ u2.lockedUntil = none)
    ∧ (∃ f rows1, consumeOtp stOtp.resetTokens rhex 0 = some (f, rows1)
        ∧ f.token = rhex
        ∧ (∃ u2 ∈ (resetPassword stOtp 0 rhex "GoodPass!" "nh").2.users, u2.id = f.userID)
        ∧ ∀ u2 ∈ (resetPassword stOtp 0 rhex "GoodPass!" "nh").2.users,
            u2.id = f.userID → u2.failedLoginCount = 0 ∧ u2.lockedUntil = none) := by
  have h1 := claim_C8_lockout_counter_asymmetry.1 stExpired sk 10 chkNo
    "a@gmail.com" "x" "a@gmail.com" uExpired 5 rfl (by decide) rfl rfl (by decide) rfl
  have h2 := claim_C8_lockout_counter_asymmetry.2.1 stSession sk 0 chkYes
    "a@gmail.com" "pw" "a@gmail.com" uFix rfl (by decide) rfl rfl rfl
  have h3 := claim_C8_lockout_counter_asymmetry.2.2.1 stOtp 0 rhex "GoodPass!" "nh"
    "Password reset successfully" (resetPassword stOtp 0 rhex "GoodPass!" "nh").2 rfl
  exact ⟨h1, h2, h3⟩

/-- Helper: inversion of a successful rotation — the returned refresh token
is freshly generated at `now`, and every session row left in the new state
either survived the deletion filter (so its token differs from the
presented one) or is the newly inserted row. -/
theorem refreshToken_ok_rows (st : AuthState) (secret : String) (now : Instant)
    (tok : TokenStr) (ah : Option TokenStr) (a r : TokenStr) (st2 : AuthState)
    (h : refreshToken st secret now tok ah = (.okTokens a r, st2)) :
    (∃ uid, r = generateRefreshToken uid now secret)
    ∧ ∀ rec ∈ st2.refreshTokens, rec.token = tok → rec.token = r := by
  rw [refreshToken] at h
  cases hv : validateToken tok .refresh secret now with
  | error e =>
    rw [hv] at h
    simp at h
  | ok c =>
    rw [hv] at h
    simp only [] at h
    by_cases hb : isBlkTrue st now tok = true
    · rw [if_pos hb] at h
      simp at h
    · rw [if_neg hb] at h
      cases hf : st.refreshTokens.find?
          (fun rec => rec.token == tok && decide (now < rec.expiresAt)) with
      | none =>
        rw [hf] at h
        simp at h
      | some rec0 =>
        rw [hf] at h
        simp only [Prod.mk.injEq, HttpResult.okTokens.injEq] at h
        obtain ⟨⟨ha, hr⟩, hst⟩ := h
        refine ⟨⟨c.userID, hr.symm⟩, ?_⟩
        intro rec hrec htok
        rw [← hst] at hrec
        simp only [List.mem_append, List.mem_singleton] at hrec
        rcases hrec with h1 | h1
        · have h2 := List.of_mem_filter h1
          simp at h2
          exact absurd htok h2
        · subst h1
          exact hr

/-- C1 fails as stated: rotating a refresh token within the very second it
was issued regenerates the identical token string (NumericDate truncates
to seconds), so the handler deletes and then re-creates a session row
under the same token — here, with the revocation store unreachable, the
same token string is exchanged successfully twice in a row, and the first
rotation even returns the presented token as the "new" one. -/
theorem claim_C1_single_use_counterexample :
    (refreshToken stSessionDown sk 0 tokR0 none).1
        = .okTokens (generateAccessToken 1 0 sk) tokR0
    ∧ (refreshToken (refreshToken stSessionDown sk 0 tokR0 none).2 sk 0 tokR0 none).1
        = .okTokens (generateAccessToken 1 0 sk) tokR0
    ∧ ((refreshToken stSessionDown sk 0 tokR0 none).2.refreshTokens.any
        (fun rec => rec.token == tokR0)) = true :=
  ⟨rfl, rfl, rfl⟩

/-- C1 (amended). Provided the rotation happens at a later second than the
presented token's `iat` claim (so that the freshly generated refresh token
differs from it), a successful rotation leaves no session row with the old
token string, and any rotation attempt presenting a token that has no
session row fails with a 401 and an unchanged state — issuing nothing —
whatever the blacklist contains and whether or not the cache is up. A
same-second rotation instead re-creates the row under the identical token
string, defeating the database gate. -/
theorem claim_C1_single_use_amended :
    ∀ (st : AuthState) (secret : String) (now : Instant) (tok : TokenStr)
      (ah : Option TokenStr) (a r : TokenStr) (st2 : AuthState),
      refreshToken st secret now tok ah = (.okTokens a r, st2) →
      tokenIat tok ≠ some (numDate now) →
      (∀ rec ∈ st2.refreshTokens, rec.token ≠ tok)
      ∧ ∀ (s3 : AuthState) (now3 : Instant) (ah3 : Option TokenStr),
          (∀ rec ∈ s3.refreshTokens, rec.token ≠ tok) →
          ∃ msg, refreshToken s3 secret now3 tok ah3 = (.unauthorized msg, s3) := by
  intro st secret now tok ah a r st2 h hiat
  obtain ⟨⟨uid, hr⟩, hall⟩ := refreshToken_ok_rows st secret now tok ah a r st2 h
  have hrneq : r ≠ tok := by
    intro he
    apply hiat
    rw [← he, hr]
    rfl
  constructor
  · intro rec hrec htok
    exact hrneq ((hall rec hrec htok).symm.trans htok)
  · intro s3 now3 ah3 hno
    cases hv : validateToken tok .refresh secret now3 with
    | error e => exact ⟨"Invalid refresh token", by simp [refreshToken, hv]⟩
    | ok c =>
      by_cases hb : isBlkTrue s3 now3 tok = true
      · exact ⟨"Refresh token has been revoked", by simp [refreshToken, hv, hb]⟩
      · have hf : s3.refreshTokens.find?
            (fun rec => rec.token == tok && decide (now3 < rec.expiresAt)) = none := by
          rw [List.find?_eq_none]
          intro rec hrec
          simp [hno rec hrec]
        exact ⟨"Invalid refresh token", by simp [refreshToken, hv, hb, hf]⟩

/-- Witness for amended C1: rotating the instant-0 token at instant
`second` (a later second) leaves no row carrying it, and presenting it to
a state holding no row for it is rejected with the state unchanged. -/
theorem claim_C1_single_use_amended_witness :
    (∀ rec ∈ (refreshToken stSession sk second tokR0 none).2.refreshTokens,
        rec.token ≠ tokR0)
    ∧ ∃ msg, refreshToken stNoRows sk second tokR0 none = (.unauthorized msg, stNoRows) := by
  have h := claim_C1_single_use_amended stSession sk second tokR0 none
    (generateAccessToken 1 second sk) (generateRefreshToken 1 second sk)
    (refreshToken stSession sk second tokR0 none).2 rfl (by decide)
  exact ⟨h.1, h.2 stNoRows second none (by decide)⟩

end GoAuth
